import Mathlib

set_option maxRecDepth 16000

/-!
Verification of the dispatch core of the Sovereign Desktop agent repository:
the result type (`src/app/utils/result.py`), the safety boundary
(`src/app/utils/safety.py`, `src/app/utils/safe_execution.py`), the tool
contract (`src/app/interfaces/tool.py`, `src/app/interfaces/tool_interface.py`),
the registries (`src/app/core/registry.py`, `src/app/core/tool_registry.py`),
the semantic router (`src/app/core/router.py`) and the dispatcher
(`src/main.py`), shallowly embedded in Lean.

Python values flowing through the dispatch pipeline are modelled by the
`Json` inductive (JSON values and Python `None`/`bool`/`int`/`str`/`list`/
`dict` coincide on everything the core manipulates).  A raised Python
exception is modelled by `PyExc`; fallible code returns `Except PyExc α`,
and code that catches every exception is a total function.
-/

/-- A raised Python exception: the class name and the `str(e)` message. -/
structure PyExc where
  typeName : String
  msg : String
deriving DecidableEq

/-- Python/JSON values manipulated by the dispatch core: `None`, booleans,
integers, strings, lists and (insertion-ordered) string-keyed dicts. -/
inductive Json where
  | null
  | bool (b : Bool)
  | num (n : Int)
  | str (s : String)
  | arr (elems : List Json)
  | obj (entries : List (String × Json))

/-- The length of a string built from an explicit character list. -/
theorem strLength_mk (l : List Char) : (String.mk l).length = l.length := rfl

/-- `needle` occurs as a contiguous run inside `haystack` (Python's `in`
operator on strings; the empty needle always matches). -/
def listContainsRun (needle haystack : List Char) : Bool :=
  match haystack with
  | [] => needle.isEmpty
  | _ :: rest => needle.isPrefixOf haystack || listContainsRun needle rest

namespace Json

mutual
/-- Structural size of a value, used as recursion fuel for rendering. -/
def size : Json → Nat
  | .null => 1
  | .bool _ => 1
  | .num _ => 1
  | .str _ => 1
  | .arr xs => 1 + sizeL xs
  | .obj kvs => 1 + sizeE kvs

/-- Size of a list of values. -/
def sizeL : List Json → Nat
  | [] => 0
  | x :: xs => size x + sizeL xs

/-- Size of a dict's entry list. -/
def sizeE : List (String × Json) → Nat
  | [] => 0
  | (_, v) :: xs => size v + sizeE xs
end

/-- First-occurrence lookup in a dict's entry list (Python dict lookup;
keys are unique in any dict the model builds). -/
def lookup (entries : List (String × Json)) (k : String) : Option Json :=
  match entries with
  | [] => none
  | (k', v) :: rest => if k' = k then some v else lookup rest k

/-- Python `d[k] = v` on a dict: replace the value in place if the key is
present (keeping its position), otherwise append. -/
def objInsert (entries : List (String × Json)) (k : String) (v : Json) :
    List (String × Json) :=
  match entries with
  | [] => [(k, v)]
  | (k', v') :: rest =>
      if k' = k then (k', v) :: rest else (k', v') :: objInsert rest k v

/-- Is the value a dict? -/
def isObj : Json → Bool
  | .obj _ => true
  | _ => false

/-- Key membership for a dict value, `false` on every non-dict. -/
def hasKey (j : Json) (k : String) : Bool :=
  match j with
  | .obj entries => (lookup entries k).isSome
  | _ => false

/-- `j.get k` where `j` is expected to be a dict (Python `dict.get`,
returning `None`-as-`none` when the key is absent); on a non-dict this
helper is only applied after the model established `j` is a dict. -/
def objGet : Json → String → Option Json
  | .obj entries, k => lookup entries k
  | _, _ => none

/-- Python truthiness of a value (`if value:`). -/
def truthy : Json → Bool
  | .null => false
  | .bool b => b
  | .num n => n ≠ 0
  | .str s => s ≠ ""
  | .arr xs => ¬xs.isEmpty
  | .obj kvs => ¬kvs.isEmpty

/-- Python `==` between a core value and a string literal: true exactly for
the equal string (values of other types compare unequal, never raise). -/
def eqStr (j : Json) (s : String) : Bool :=
  match j with
  | .str s' => s' = s
  | _ => false

/-- Can the value be used as a Python dict key (hashable)?  Lists and dicts
are unhashable and make membership/lookup raise `TypeError`. -/
def hashable : Json → Bool
  | .arr _ => false
  | .obj _ => false
  | _ => true

/-- Python `key in j` (the `in` operator): key membership on dicts, element
equality on lists, substring test on strings; raises `TypeError` on
non-iterable values (`None`, booleans, numbers). -/
def pyContains (j : Json) (k : String) : Except PyExc Bool :=
  match j with
  | .obj entries => .ok (lookup entries k).isSome
  | .arr xs => .ok (xs.any (fun x => eqStr x k))
  | .str s => .ok (listContainsRun k.data s.data)
  | _ => .error ⟨"TypeError", "argument of type is not iterable"⟩

/-- Python `j[k]` with a string index: dict lookup (`KeyError` when
absent); raises `TypeError` on lists, strings and scalars. -/
def pyGetItem (j : Json) (k : String) : Except PyExc Json :=
  match j with
  | .obj entries =>
      match lookup entries k with
      | some v => .ok v
      | none => .error ⟨"KeyError", k⟩
  | .arr _ => .error ⟨"TypeError", "list indices must be integers or slices, not str"⟩
  | .str _ => .error ⟨"TypeError", "string indices must be integers"⟩
  | _ => .error ⟨"TypeError", "object is not subscriptable"⟩

/-- Python `j[k] = v` with a string index: dict assignment; raises
`TypeError` on every non-dict value. -/
def pySetItem (j : Json) (k : String) (v : Json) : Except PyExc Json :=
  match j with
  | .obj entries => .ok (.obj (objInsert entries k v))
  | .arr _ => .error ⟨"TypeError", "list indices must be integers or slices, not str"⟩
  | .str _ => .error ⟨"TypeError", "str object does not support item assignment"⟩
  | _ => .error ⟨"TypeError", "object does not support item assignment"⟩

/-- Python `j.get(k, default)`: dict method, present only on dicts —
raises `AttributeError` on every other value. -/
def pyGetAttrGet (j : Json) (k : String) (default : Json) : Except PyExc Json :=
  match j with
  | .obj entries => .ok ((lookup entries k).getD default)
  | _ => .error ⟨"AttributeError", "object has no attribute get"⟩

/-- `str()`/`repr()` rendering of a value inside an f-string, with fuel for
the nested recursion.  Rendering of nested containers is simplified
(single quotes, no escaping) — no theorem depends on its exact text. -/
def reprFuel : Nat → Json → String
  | 0, _ => ""
  | _ + 1, .null => "None"
  | _ + 1, .bool b => if b then "True" else "False"
  | _ + 1, .num n => if n < 0 then "-" ++ toString (-n).toNat else toString n.toNat
  | _ + 1, .str s => "\x27" ++ s ++ "\x27"
  | fuel + 1, .arr xs =>
      "[" ++ String.intercalate ", " (xs.map (reprFuel fuel)) ++ "]"
  | fuel + 1, .obj kvs =>
      "\x7b" ++
        String.intercalate ", "
          (kvs.map (fun p => "\x27" ++ p.1 ++ "\x27: " ++ reprFuel fuel p.2)) ++
      "\x7d"

/-- Python `str(j)` (what an f-string interpolates): the string itself for
strings, `repr`-style text otherwise. -/
def pyStr (j : Json) : String :=
  match j with
  | .str s => s
  | _ => reprFuel (size j) j

/-- f-string interpolation of an optional value (`None` renders as
`"None"`). -/
def pyStrOpt : Option Json → String
  | none => "None"
  | some j => pyStr j

end Json

/-! ## `src/app/utils/result.py` -/

/-- `CommandResult` (`src/app/utils/result.py`, lines 31-79): the tri-state
result container.  Python's default `data=None`/`error=None` are `Json.null`
and `none`. -/
structure CommandResult where
  success : Bool
  data : Json := .null
  error : Option String := none

/-- The legacy `Result` class (`src/app/utils/result.py`, lines 86-198),
used by `tool_interface.py` and `tool_registry.py`.  `metadata` keeps the
keyword arguments passed to `Result.ok`/`Result.fail`. -/
structure Result where
  success : Bool
  data : Json := .null
  error : Option String := none
  error_code : Option String := none
  metadata : List (String × Json) := []

/-- `Result.ok(data, **metadata)`. -/
def Result.ok (data : Json := .null) (metadata : List (String × Json) := []) : Result :=
  { success := true, data := data, metadata := metadata }

/-- `Result.fail(error, code, **metadata)`. -/
def Result.fail (error : String) (code : Option String := none)
    (metadata : List (String × Json) := []) : Result :=
  { success := false, error := some error, error_code := code, metadata := metadata }

/-! ## `src/app/utils/safety.py` -/

/-- What a wrapped Python callable can produce when it does not raise:
either a `CommandResult` instance (the `isinstance` branch of the safety
wrapper) or any other value. -/
def RunOut := Sum CommandResult Json

namespace Safety

/-- `safe_execute` (`src/app/utils/safety.py`, lines 80-139): run the
callable; pass a returned `CommandResult` through unchanged, wrap any other
return value in `CommandResult(success=True, data=...)`, and convert a
raised exception into `CommandResult(success=False, error=str(e))`.
Logging to `app.log` is a side effect with no bearing on the returned
value and is not modelled. -/
def safe_execute (func : Unit → Except PyExc RunOut) : CommandResult :=
  match func () with
  | .ok (.inl r) => r
  | .ok (.inr v) => { success := true, data := v }
  | .error e => { success := false, error := some e.msg }

end Safety

/-! ## `src/app/interfaces/tool.py` -/

/-- `BaseTool` (`src/app/interfaces/tool.py`): the capability contract.
`runImpl` is the abstract `_run(**kwargs)` implementation supplied by each
tool; it receives the keyword-argument dict and may raise. -/
structure BaseTool where
  name : String
  description : String
  runImpl : List (String × Json) → Except PyExc RunOut

/-- `BaseTool.execute` (`src/app/interfaces/tool.py`, lines 131-151): wrap
`_run(**kwargs)` with `@safe_execute`; total — no exception escapes. -/
def BaseTool.execute (t : BaseTool) (kwargs : List (String × Json)) : CommandResult :=
  Safety.safe_execute (fun _ => t.runImpl kwargs)

/-! ## `src/app/utils/safe_execution.py` -/

namespace SafeExecution

/-- `a` occurs as a contiguous substring of `b` (Python `a in b` on
strings). -/
def strContains (b a : String) : Bool := listContainsRun a.data b.data

/-- Lower-casing of a type name (Python `str.lower()` on the ASCII names
that occur here). -/
def strLower (s : String) : String := String.mk (s.data.map Char.toLower)

/-- The `translations` table of `_generate_user_friendly_error`
(`src/app/utils/safe_execution.py`, lines 154-162), in source order. -/
def translations : List (String × String) :=
  [("FileNotFoundError", "The file could not be found"),
   ("PermissionError", "Permission denied - the file may be in use"),
   ("ConnectionError", "Could not connect to the service"),
   ("TimeoutError", "The operation timed out"),
   ("AttributeError", "An internal error occurred"),
   ("pywintypes.com_error", "Failed to communicate with the application"),
   ("ModuleNotFoundError", "A required component is not installed")]

/-- First table entry whose key is a substring of the exception's type
name (the `for err_type, friendly_msg in translations.items()` loop). -/
def findTranslation (errorType : String) : List (String × String) → Option String
  | [] => none
  | (k, friendly) :: rest =>
      if strContains errorType k then some friendly else findTranslation errorType rest

/-- Python `str(type(e))`, e.g. `<class 'ValueError'>`. -/
def typeRepr (e : PyExc) : String := "<class \x27" ++ e.typeName ++ "\x27>"

/-- `_generate_user_friendly_error` (`src/app/utils/safe_execution.py`,
lines 144-177): translate an exception into a short user-facing message,
truncating the technical text to 100 characters on a translation hit and
to 150 characters (plus an ellipsis) on the default path. -/
def generate_user_friendly_error (e : PyExc) : String :=
  let errorType := e.typeName
  let errorMsg := e.msg
  if strContains (strLower errorType) "com_error" || strContains (typeRepr e) "pywintypes" then
    "Failed to communicate with the Windows application. It may not be installed or accessible."
  else
    match findTranslation errorType translations with
    | some friendly => friendly ++ ": " ++ String.mk (errorMsg.data.take 100)
    | none =>
        let errorMsg' :=
          if errorMsg.data.length > 150 then String.mk (errorMsg.data.take 150) ++ "..." else errorMsg
        "Operation failed: " ++ errorMsg'

/-- What a `tool_interface`-style callable can produce when it does not
raise: a legacy `Result` (the `isinstance` branch) or any other value. -/
def TIRunOut := Sum Result Json

/-- Module-level `safe_execute` (`src/app/utils/safe_execution.py`, lines
269-301): run the callable; pass a `Result` through, wrap other values in
`Result.ok`, convert a raised exception into `Result.fail` with the
user-friendly message and the exception type name as code.  Logging to
`errors.log` is not modelled. -/
def safe_execute (fn : Unit → Except PyExc TIRunOut) : Result :=
  match fn () with
  | .ok (.inl r) => r
  | .ok (.inr v) => Result.ok v
  | .error e => Result.fail (generate_user_friendly_error e) (some e.typeName)

end SafeExecution

/-! ## `src/app/interfaces/tool_interface.py` -/

namespace ToolInterface

/-- The `BaseTool` contract of `src/app/interfaces/tool_interface.py`:
`executeImpl` is the abstract `execute(params)` supplied by each tool (it
receives the parameter dict and may raise). -/
structure BaseTool where
  name : String
  description : String
  executeImpl : List (String × Json) → Except PyExc SafeExecution.TIRunOut

/-- `BaseTool.run` (`src/app/interfaces/tool_interface.py`, lines 175-201,
with `SAFE_EXECUTION_AVAILABLE = True` as in the repository): wrap
`execute(params)` with `safe_execution.safe_execute`. -/
def BaseTool.run (t : BaseTool) (params : List (String × Json)) : Result :=
  SafeExecution.safe_execute (fun _ => t.executeImpl params)

/-- `ToolRegistry.register` (`src/app/interfaces/tool_interface.py`, lines
238-241): `cls._tools[tool.name] = tool` — silent overwrite on duplicate
names. -/
def ToolRegistry.register (tools : List (String × BaseTool)) (t : BaseTool) :
    List (String × BaseTool) :=
  match tools with
  | [] => [(t.name, t)]
  | (k, v) :: rest =>
      if k = t.name then (k, t) :: rest else (k, v) :: ToolRegistry.register rest t

end ToolInterface

/-! ## `src/app/core/registry.py` -/

namespace CoreRegistry

/-- The `_tools` dict of `app.core.registry.ToolRegistry`: an
insertion-ordered map from tool name to tool. -/
abbrev Tools := List (String × BaseTool)

/-- The registered names, in insertion order (`dict` key order). -/
def toolNames (tools : Tools) : List String := tools.map Prod.fst

/-- `register_tool` (`src/app/core/registry.py`, lines 60-79): raise
`ValueError` when the name is already registered, otherwise add the tool.
(The `isinstance` guard is enforced by the embedding's types.) -/
def register_tool (tools : Tools) (t : BaseTool) : Except PyExc Tools :=
  if t.name ∈ toolNames tools then
    .error ⟨"ValueError", "Tool \x27" ++ t.name ++ "\x27 is already registered"⟩
  else
    .ok (tools ++ [(t.name, t)])

/-- `get_tool` (`src/app/core/registry.py`, lines 81-96): `dict.get`. -/
def get_tool (tools : Tools) (name : String) : Option BaseTool :=
  match tools with
  | [] => none
  | (k, v) :: rest => if k = name then some v else get_tool rest name

/-- `__contains__` (`src/app/core/registry.py`, lines 145-147). -/
def containsName (tools : Tools) (name : String) : Bool :=
  name ∈ toolNames tools

/-- Lexicographic comparison of strings by character code point —
Python's `<=` on the distinct keys that `sorted` compares. -/
def lexLe : List Char → List Char → Bool
  | [], _ => true
  | _ :: _, [] => false
  | a :: as, b :: bs =>
      if a.toNat < b.toNat then true
      else if b.toNat < a.toNat then false
      else lexLe as bs

/-- Ordering of registry items by tool name (what
`sorted(self._tools.items())` sorts by when names are distinct). -/
def itemLe (p q : String × BaseTool) : Prop := lexLe p.1.data q.1.data = true

instance : DecidableRel itemLe := fun p q =>
  inferInstanceAs (Decidable (lexLe p.1.data q.1.data = true))

/-- `sorted(self._tools.items())`: the registry items sorted by name. -/
def sortedItems (tools : Tools) : Tools := List.insertionSort itemLe tools

/-- `list_tools` (`src/app/core/registry.py`, lines 98-121): the formatted
catalog string built from `sortedItems`. -/
def list_tools (tools : Tools) : String :=
  if tools.isEmpty then "No tools registered."
  else
    String.intercalate "\n"
      ("Available Tools:" ::
        (sortedItems tools).map (fun p => "  - " ++ p.1 ++ ": " ++ p.2.description))

end CoreRegistry

/-! ## `src/app/core/tool_registry.py` -/

namespace CoreToolRegistry

/-- The `_tools` dict of `app.core.tool_registry.ToolRegistry` (its tools
implement the `tool_interface` contract). -/
abbrev Tools := List (String × ToolInterface.BaseTool)

/-- The registered names, in insertion order. -/
def toolNames (tools : Tools) : List String := tools.map Prod.fst

/-- `register_tool` (`src/app/core/tool_registry.py`, lines 49-63):
overwrite on duplicate names (`self._tools[tool.name] = tool`), emitting a
warning; the returned flag records whether the duplicate warning fired. -/
def register_tool (tools : Tools) (t : ToolInterface.BaseTool) : Tools × Bool :=
  (registerDict tools t, t.name ∈ toolNames tools)
where
  /-- `self._tools[tool.name] = tool`: in-place overwrite or append. -/
  registerDict : Tools → ToolInterface.BaseTool → Tools
    | [], t => [(t.name, t)]
    | (k, v) :: rest, t =>
        if k = t.name then (k, t) :: rest else (k, v) :: registerDict rest t

/-- `get_tool` (`src/app/core/tool_registry.py`, lines 78-88). -/
def get_tool (tools : Tools) (name : String) : Option ToolInterface.BaseTool :=
  match tools with
  | [] => none
  | (k, v) :: rest => if k = name then some v else get_tool rest name

/-- `execute_tool` (`src/app/core/tool_registry.py`, lines 90-114): look
the tool up; on a miss return
`Result.fail(error=f"Tool not found: {name}", code="TOOL_NOT_FOUND",
available_tools=...)`; on a hit run the tool through its safe `run`. -/
def execute_tool (tools : Tools) (name : String) (params : List (String × Json)) :
    Result :=
  match get_tool tools name with
  | none =>
      Result.fail ("Tool not found: " ++ name) (some "TOOL_NOT_FOUND")
        [("available_tools", .arr ((toolNames tools).map Json.str))]
  | some tool => tool.run params

/-- `list_tools` (`src/app/core/tool_registry.py`, lines 116-118): the
registered names, in insertion order — no descriptions. -/
def list_tools (tools : Tools) : List String := toolNames tools

end CoreToolRegistry

/-! ## `src/app/core/router.py` -/

/-- The whitespace class of Python's `str.strip()` and of the `\s` regex
class, restricted to ASCII. -/
def pyIsSpace (c : Char) : Bool :=
  c = ' ' || c = '\t' || c = '\n' || c = '\r' || c = '\x0b' || c = '\x0c'

/-- Python `str.strip()`. -/
def pyStrip (cs : List Char) : List Char :=
  ((cs.dropWhile pyIsSpace).reverse.dropWhile pyIsSpace).reverse

namespace SemanticRouter

/-- One `re.sub(tok + "\s*", "", ...)` pass: scan left to right, deleting
every occurrence of the literal token together with the following
whitespace run (leftmost, non-overlapping, greedy — exactly what the
router's fence-stripping regexes do). -/
def removeTokenRuns (tok : List Char) : Nat → List Char → List Char
  | 0, cs => cs
  | fuel + 1, cs =>
      if tok.isPrefixOf cs ∧ ¬tok.isEmpty then
        removeTokenRuns tok fuel ((cs.drop tok.length).dropWhile pyIsSpace)
      else
        match cs with
        | [] => []
        | c :: rest => c :: removeTokenRuns tok fuel rest

/-- `_clean_json_response` (`src/app/core/router.py`, lines 138-167):
strip ```` ```json ```` and ```` ``` ```` fences, strip surrounding
whitespace, then cut to the span from the first `{` to the last `}` when
that span is non-degenerate. -/
def clean_json_response (response : String) : String :=
  let cs := response.data
  let cs := removeTokenRuns "```json".data (cs.length + 1) cs
  let cs := removeTokenRuns "```".data (cs.length + 1) cs
  let cs := pyStrip cs
  let start := cs.findIdx? (· = '{')
  let stop :=
    match cs.reverse.findIdx? (· = '}') with
    | none => none
    | some i => some (cs.length - 1 - i)
  match start, stop with
  | some s, some e => if e > s then String.mk ((cs.drop s).take (e + 1 - s)) else String.mk cs
  | _, _ => String.mk cs

/-- JSON whitespace accepted between tokens by `json.loads`. -/
def jsonWs (c : Char) : Bool := c = ' ' || c = '\t' || c = '\n' || c = '\r'

/-- Skip JSON whitespace. -/
def skipWs (cs : List Char) : List Char := cs.dropWhile jsonWs

/-- Body of a JSON string after the opening quote: plain characters up to
the closing quote (escape sequences are outside the modelled fragment and
fail the parse). -/
def stringBody : List Char → Option (String × List Char)
  | [] => none
  | c :: rest =>
      if c = '"' then some ("", rest)
      else if c = '\\' then none
      else
        match stringBody rest with
        | some (s, r) => some (String.mk (c :: s.data), r)
        | none => none

/-- Decimal digits to a natural number. -/
def digitsToNat (ds : List Char) : Nat :=
  ds.foldl (fun acc c => acc * 10 + (c.toNat - 48)) 0

/-- A JSON integer (optional minus sign and digits; the fragment model
excludes floats and exponents). -/
def numberToken (cs : List Char) : Option (Json × List Char) :=
  match cs with
  | '-' :: rest =>
      let ds := rest.takeWhile Char.isDigit
      if ds.isEmpty then none
      else some (.num (-(Int.ofNat (digitsToNat ds))), rest.drop ds.length)
  | _ =>
      let ds := cs.takeWhile Char.isDigit
      if ds.isEmpty then none
      else some (.num (Int.ofNat (digitsToNat ds)), cs.drop ds.length)

mutual
/-- Recursive-descent JSON value, with fuel bounding the recursion depth. -/
def jsonVal : Nat → List Char → Option (Json × List Char)
  | 0, _ => none
  | fuel + 1, cs =>
      let cs := skipWs cs
      match cs with
      | [] => none
      | '{' :: rest =>
          (match skipWs rest with
           | '}' :: r2 => some (.obj [], r2)
           | r => jsonMembers fuel [] r)
      | '[' :: rest =>
          (match skipWs rest with
           | ']' :: r2 => some (.arr [], r2)
           | r => jsonElems fuel [] r)
      | '"' :: rest =>
          (match stringBody rest with
           | some (s, r2) => some (.str s, r2)
           | none => none)
      | _ =>
          if "true".data.isPrefixOf cs then some (.bool true, cs.drop 4)
          else if "false".data.isPrefixOf cs then some (.bool false, cs.drop 5)
          else if "null".data.isPrefixOf cs then some (.null, cs.drop 4)
          else numberToken cs

/-- Members of a JSON object (after the opening brace, at least one
member); duplicate keys overwrite in place as in Python. -/
def jsonMembers : Nat → List (String × Json) → List Char → Option (Json × List Char)
  | 0, _, _ => none
  | fuel + 1, acc, cs =>
      match skipWs cs with
      | '"' :: rest =>
          (match stringBody rest with
           | none => none
           | some (k, r2) =>
               match skipWs r2 with
               | ':' :: r3 =>
                   (match jsonVal fuel r3 with
                    | none => none
                    | some (v, r4) =>
                        let acc := Json.objInsert acc k v
                        match skipWs r4 with
                        | ',' :: r5 => jsonMembers fuel acc r5
                        | '}' :: r5 => some (.obj acc, r5)
                        | _ => none)
               | _ => none)
      | _ => none

/-- Elements of a JSON array (after the opening bracket, at least one
element). -/
def jsonElems : Nat → List Json → List Char → Option (Json × List Char)
  | 0, _, _ => none
  | fuel + 1, acc, cs =>
      match jsonVal fuel cs with
      | none => none
      | some (v, r) =>
          match skipWs r with
          | ',' :: r2 => jsonElems fuel (acc ++ [v]) r2
          | ']' :: r2 => some (.arr (acc ++ [v]), r2)
          | _ => none
end

/-- Modelled from the external standard library: Python's `json.loads`
(the router's only parser), on the JSON fragment the router exchanges with
the classifier — objects with string keys, arrays, strings without escape
sequences, integers, `true`/`false`/`null`.  `none` is a
`json.JSONDecodeError`; trailing non-whitespace is an error as in
`json.loads`. -/
def jsonLoads (s : String) : Option Json :=
  match jsonVal (s.data.length + 2) s.data with
  | some (j, rest) => if (skipWs rest).isEmpty then some j else none
  | none => none

/-- The structure-validation body of `_parse_response` (lines 184-188 of
`src/app/core/router.py`): backfill `tool_name`/`parameters` when absent
(Python `in`/item-assignment semantics, so a non-dict parse result makes
this raise `TypeError`). -/
def backfillDefaults (result : Json) : Except PyExc Json := do
  let hasTn ← result.pyContains "tool_name"
  let result ← if hasTn then pure result else result.pySetItem "tool_name" (.str "general_chat")
  let hasPar ← result.pyContains "parameters"
  let result ← if hasPar then pure result else result.pySetItem "parameters" (.obj [])
  pure result

/-- `_parse_response` (`src/app/core/router.py`, lines 169-197): clean the
raw reply, `json.loads` it, backfill the `tool_name`/`parameters` defaults
(`in` / item assignment semantics included: a non-dict parse result makes
the backfilling raise `TypeError`, which this helper propagates — only
`json.JSONDecodeError` is caught and turned into the `general_chat`
fallback carrying the raw reply and a `parse_error` flag). -/
def parse_response (response : String) : Except PyExc Json :=
  match jsonLoads (clean_json_response response) with
  | none =>
      .ok (.obj [("tool_name", .str "general_chat"),
                 ("parameters", .obj [("message", .str response),
                                     ("parse_error", .bool true)])])
  | some result => backfillDefaults result

/-- Python `key in registry` for the router's `__contains__` check, where
`key` is whatever the classifier put under `tool_name`: unhashable values
raise `TypeError`, hashable non-strings are simply absent. -/
def registryContains (names : List String) (key : Json) : Except PyExc Bool :=
  match key with
  | .arr _ => .error ⟨"TypeError", "unhashable type: list"⟩
  | .obj _ => .error ⟨"TypeError", "unhashable type: dict"⟩
  | .str s => .ok (s ∈ names)
  | _ => .ok false

/-- The body of `route`'s `try` block (`src/app/core/router.py`, lines
231-256): the classifier call (its outcome — reply text or raised
exception — is the `outcome` argument), response parsing, and the
unknown-tool warning. -/
def routeTry (names : List String) (outcome : Except PyExc String) :
    Except PyExc Json := do
  let llmResponse ← outcome
  let result ← parse_response llmResponse
  let tn ← result.pyGetItem "tool_name"
  if tn.eqStr "general_chat" then
    pure result
  else do
    let inReg ← registryContains names tn
    if inReg then
      pure result
    else
      result.pySetItem "warning" (.str ("Tool \x27" ++ Json.pyStr tn ++ "\x27 not found in registry"))

/-- `route` (`src/app/core/router.py`, lines 199-263): empty/whitespace
queries short-circuit to the `general_chat`/`Empty query` decision without
touching the classifier; otherwise the `try` body runs and any exception
it raises (classifier failure or backfill `TypeError`) degrades to the
`general_chat`/`Routing error` decision.  Total: `route` never raises.
(The `ollama` import is modelled as available, as in the repository.) -/
def route (names : List String) (user_query : String)
    (outcome : Except PyExc String) : Json :=
  if user_query.data.isEmpty || (pyStrip user_query.data).isEmpty then
    .obj [("tool_name", .str "general_chat"),
          ("parameters", .obj [("message", .str "")]),
          ("error", .str "Empty query")]
  else
    match routeTry names outcome with
    | .ok r => r
    | .error e =>
        .obj [("tool_name", .str "general_chat"),
              ("parameters", .obj [("message", .str user_query)]),
              ("error", .str ("Routing error: " ++ e.msg))]

/-- `registry.get_tool(tool_name)` as called from `route_and_execute` and
`process_command`, where `tool_name` is `decision.get("tool_name")`:
`dict.get` raises on unhashable keys, misses on hashable non-names. -/
def getToolByKey (tools : CoreRegistry.Tools) (key : Option Json) :
    Except PyExc (Option BaseTool) :=
  match key with
  | none => .ok none
  | some (.arr _) => .error ⟨"TypeError", "unhashable type: list"⟩
  | some (.obj _) => .error ⟨"TypeError", "unhashable type: dict"⟩
  | some (.str s) => .ok (CoreRegistry.get_tool tools s)
  | some _ => .ok none

/-- Render an `error` attribute in an f-string (`None` when absent). -/
def errStr : Option String → String
  | none => "None"
  | some s => s

/-- `route_and_execute` (`src/app/core/router.py`, lines 265-309).  The
`tool.execute(**parameters)` call raises `TypeError` when the routed
`parameters` value is not a dict. -/
def route_and_execute (tools : CoreRegistry.Tools) (user_query : String)
    (outcome : Except PyExc String) : Except PyExc CommandResult :=
  let route_result := route (CoreRegistry.toolNames tools) user_query outcome
  let tool_name := route_result.objGet "tool_name"
  let parameters := (route_result.objGet "parameters").getD (.obj [])
  if route_result.hasKey "error" then
    .ok { success := false, data := route_result,
          error := some (Json.pyStrOpt (route_result.objGet "error")) }
  else if (tool_name.map (·.eqStr "general_chat")).getD false then do
    let msg ← parameters.pyGetAttrGet "message" (.str user_query)
    .ok { success := true, data := .obj [("type", .str "chat"), ("message", msg)] }
  else do
    match ← getToolByKey tools tool_name with
    | none =>
        .ok { success := false, data := route_result,
              error := some ("Tool not found: " ++ Json.pyStrOpt tool_name) }
    | some tool =>
        match parameters with
        | .obj kwargs => .ok (tool.execute kwargs)
        | _ => .error ⟨"TypeError", "argument after ** must be a mapping"⟩

end SemanticRouter

/-! ## `src/main.py` -/

namespace SovereignAgent

/-- `_handle_chat` (`src/main.py`, lines 214-218): a fixed conversational
reply. -/
def handle_chat (_query : String) : String :=
  "I\x27m your desktop assistant. I can control volume, brightness, launch apps, analyze your screen, and work with Office documents. How can I help?"

/-- `_format_success` (`src/main.py`, lines 281-307): the tool-specific
formatting table.  Membership tests and `.get` calls on the result's
`data` follow Python semantics and can raise when `data` is not a dict;
branches that match no key fall through to the final `Done:` line. -/
def format_success (tool_name : Option Json) (data : Json) : Except PyExc String :=
  let isTool := fun s => (tool_name.map (·.eqStr s)).getD false
  let fallthrough : Except PyExc String := pure ("Done: " ++ Json.pyStr data)
  if isTool "set_volume" then do
    if ← data.pyContains "volume" then do
      let v ← data.pyGetItem "volume"
      pure ("Volume set to " ++ Json.pyStr v ++ "%")
    else if ← data.pyContains "muted" then do
      let m ← data.pyGetItem "muted"
      pure (if m.truthy then "Audio muted" else "Audio unmuted")
    else fallthrough
  else if isTool "set_brightness" then do
    if ← data.pyContains "brightness" then do
      let b ← data.pyGetItem "brightness"
      pure ("Brightness set to " ++ Json.pyStr b ++ "%")
    else fallthrough
  else if isTool "launch_app" then do
    let app ← data.pyGetAttrGet "app" (.str "the application")
    pure ("Launched " ++ Json.pyStr app)
  else if isTool "write_word_doc" then do
    let saved ← data.pyGetAttrGet "saved" .null
    if saved.truthy then do
      let fn ← data.pyGetAttrGet "filename" (.str "document")
      pure ("Created Word document: " ++ Json.pyStr fn)
    else
      pure "Created Word document. Use File > Save to save it."
  else if isTool "read_excel" then do
    let rows ← data.pyGetAttrGet "rows" (.num 0)
    let cols ← data.pyGetAttrGet "cols" (.num 0)
    pure ("Read " ++ Json.pyStr rows ++ " rows and " ++ Json.pyStr cols ++ " columns from Excel")
  else fallthrough

/-- `_handle_visual_query` (`src/main.py`, lines 220-278): capture the
screen, analyze the capture, format the reply.  The subscript
`screen_result.data["path"]` / `vision_result.data["response"]` raises
when the succeeding tool's data lacks the key or is not a dict; the
temp-file cleanup is a swallowed side effect and is not modelled. -/
def handle_visual_query (tools : CoreRegistry.Tools) (parameters : Json) :
    Except PyExc String := do
  let user_query ← parameters.pyGetAttrGet "query" (.str "Describe what you see on the screen.")
  match CoreRegistry.get_tool tools "capture_screen" with
  | none => pure "Screen capture tool not available."
  | some screen_tool =>
      let screen_result := screen_tool.execute []
      if !screen_result.success then
        pure ("I couldn\x27t capture the screen: " ++ SemanticRouter.errStr screen_result.error)
      else do
        let image_path ← screen_result.data.pyGetItem "path"
        match CoreRegistry.get_tool tools "analyze_image" with
        | none => pure "Vision analysis tool not available."
        | some vision_tool =>
            let vision_result :=
              vision_tool.execute [("image_path", image_path), ("query", user_query)]
            if vision_result.success then do
              let resp ← vision_result.data.pyGetItem "response"
              pure (Json.pyStr resp)
            else
              pure ("I couldn\x27t analyze the image: " ++ SemanticRouter.errStr vision_result.error)

/-- `process_command` (`src/main.py`, lines 161-212): route the query,
branch on the decision (`error` entry, `general_chat`, `visual_query`,
registry lookup), execute the matched tool with `tool.execute(**parameters)`
(a `TypeError` when the routed `parameters` is not a dict), and format the
result.  Exceptions raised by these steps propagate to the caller — the
interaction loops in `run_text_mode` catch them one level up. -/
def process_command (tools : CoreRegistry.Tools) (user_query : String)
    (outcome : Except PyExc String) : Except PyExc String := do
  let decision := SemanticRouter.route (CoreRegistry.toolNames tools) user_query outcome
  let tool_name := decision.objGet "tool_name"
  let parameters := (decision.objGet "parameters").getD (.obj [])
  if decision.hasKey "error" then
    pure ("I had trouble understanding that: " ++ Json.pyStrOpt (decision.objGet "error"))
  else if (tool_name.map (·.eqStr "general_chat")).getD false then
    pure (handle_chat user_query)
  else if (tool_name.map (·.eqStr "visual_query")).getD false then
    handle_visual_query tools parameters
  else do
    match ← SemanticRouter.getToolByKey tools tool_name with
    | none =>
        pure ("I don\x27t have a tool called \x27" ++ Json.pyStrOpt tool_name ++ "\x27")
    | some tool => do
        let result ←
          match parameters with
          | .obj kwargs => pure (tool.execute kwargs)
          | _ => Except.error ⟨"TypeError", "argument after ** must be a mapping"⟩
        if result.success then
          format_success tool_name result.data
        else
          pure ("Sorry, that didn\x27t work: " ++ SemanticRouter.errStr result.error)

end SovereignAgent

/-! ## Claim C1 — the safety boundary absorbs every tool exception -/

/-- C1: for every tool and every parameter map, if the tool's `_run`
implementation raises any exception, `BaseTool.execute` returns the
`CommandResult.fail` built from the exception message instead of
propagating — `execute` is total (type `CommandResult`, not `Except`), so
no exception ever escapes to the caller. -/
theorem execute_absorbs_run_exception (t : BaseTool) (kwargs : List (String × Json))
    (e : PyExc) (h : t.runImpl kwargs = .error e) :
    BaseTool.execute t kwargs = { success := false, data := .null, error := some e.msg } := by
  simp [BaseTool.execute, Safety.safe_execute, h]

/-- A capability whose `_run` always raises, used to witness C1. -/
def crashingTool : BaseTool :=
  ⟨"crash_tool", "a capability that always raises",
   fun _ => .error ⟨"RuntimeError", "kaboom"⟩⟩

/-- C1 witness: the always-raising capability yields a failed
`CommandResult` carrying its message. -/
theorem execute_absorbs_run_exception_witness :
    BaseTool.execute crashingTool [] =
      { success := false, data := .null, error := some "kaboom" } :=
  execute_absorbs_run_exception crashingTool [] ⟨"RuntimeError", "kaboom"⟩ rfl

/-! ## Claim C3 — unknown tool names fail with `TOOL_NOT_FOUND` -/

/-- An unregistered name is invisible to `get_tool`. -/
theorem get_tool_eq_none_of_not_mem (tools : CoreToolRegistry.Tools) (name : String)
    (h : name ∉ CoreToolRegistry.toolNames tools) :
    CoreToolRegistry.get_tool tools name = none := by
  induction tools with
  | nil => rfl
  | cons p rest ih =>
      simp [CoreToolRegistry.toolNames] at h
      push_neg at h
      simp [CoreToolRegistry.get_tool, h.1.symm]
      exact ih (by simp [CoreToolRegistry.toolNames, h.2])

/-- C3: executing a name that is not registered returns a failed `Result`
with code `TOOL_NOT_FOUND` (and the `Tool not found` message plus the
available-tools metadata), for every parameter map; the branch constructs
the result directly, so nothing is raised. -/
theorem execute_tool_unknown_name (tools : CoreToolRegistry.Tools) (name : String)
    (params : List (String × Json)) (h : name ∉ CoreToolRegistry.toolNames tools) :
    CoreToolRegistry.execute_tool tools name params =
      { success := false, data := .null,
        error := some ("Tool not found: " ++ name),
        error_code := some "TOOL_NOT_FOUND",
        metadata := [("available_tools", .arr ((CoreToolRegistry.toolNames tools).map Json.str))] } := by
  simp [CoreToolRegistry.execute_tool, get_tool_eq_none_of_not_mem tools name h, Result.fail]

/-- C3 witness: `execute_tool("missing_tool", {})` on an empty registry. -/
theorem execute_tool_unknown_name_witness :
    CoreToolRegistry.execute_tool [] "missing_tool" [] =
      { success := false, data := .null,
        error := some ("Tool not found: " ++ "missing_tool"),
        error_code := some "TOOL_NOT_FOUND",
        metadata := [("available_tools", .arr [])] } :=
  execute_tool_unknown_name [] "missing_tool" [] (by simp [CoreToolRegistry.toolNames])

/-! ## Claim C6 — the tri-state invariant of `CommandResult` -/

/-- The invariant exactly as claimed: success implies no error, failure
implies a populated (non-empty) error message. -/
def triStateInvariant (r : CommandResult) : Prop :=
  (r.success = true → r.error = none) ∧
  (r.success = false → ∃ m, r.error = some m ∧ m ≠ "")

/-- C6 counterexample: an exception whose `str(e)` is empty (a bare
`raise ValueError()`) is absorbed by the safety boundary into
`CommandResult(success=False, error="")` — the error field is set but the
message is empty, violating the claimed invariant. -/
theorem triState_counterexample :
    ¬ triStateInvariant (Safety.safe_execute (fun _ => .error ⟨"ValueError", ""⟩)) := by
  intro h
  rcases h.2 rfl with ⟨m, hm, hne⟩
  exact hne (Option.some.inj hm).symm

/-- C6 amended: for results the safety boundary constructs itself (rather
than passes through from a tool), success implies `error = None` and
failure implies `error` is set — but the message is exactly `str(e)` and
may be the empty string. -/
theorem safe_execute_constructed_results (f : Unit → Except PyExc RunOut)
    (e : PyExc) (v : Json) :
    (f () = .error e →
        Safety.safe_execute f = { success := false, data := .null, error := some e.msg }) ∧
    (f () = .ok (.inr v) →
        Safety.safe_execute f = { success := true, data := v, error := none }) := by
  constructor
  · intro h; simp [Safety.safe_execute, h]
  · intro h; simp [Safety.safe_execute, h]

/-- C6 amended witness: one raising callable and one plain-value callable,
pushed through the boundary. -/
theorem safe_execute_constructed_results_witness :
    Safety.safe_execute (fun _ => .error ⟨"ValueError", "boom"⟩) =
      { success := false, data := .null, error := some "boom" } ∧
    Safety.safe_execute (fun _ => .ok (.inr (.num 7))) =
      { success := true, data := .num 7, error := none } :=
  ⟨(safe_execute_constructed_results (fun _ => .error ⟨"ValueError", "boom"⟩)
      ⟨"ValueError", "boom"⟩ (.num 7)).1 rfl,
   (safe_execute_constructed_results (fun _ => .ok (.inr (.num 7)))
      ⟨"ValueError", "boom"⟩ (.num 7)).2 rfl⟩

/-! ## Claim C7 — truncation of long technical messages -/

/-- A 200-character technical message. -/
def longTechnicalMsg : String := String.mk (List.replicate 200 'a')

/-- C7 counterexample: `safety.safe_execute` — the boundary that
`BaseTool.execute` actually uses — places the raw `str(e)` in the result
without truncation: a 200-character message survives in full, exceeding
the claimed ~150-character bound. -/
theorem safety_no_truncation_counterexample :
    (Safety.safe_execute (fun _ => .error ⟨"RuntimeError", longTechnicalMsg⟩)).error
        = some longTechnicalMsg ∧
    longTechnicalMsg.length = 200 ∧ 153 < 200 := by
  refine ⟨rfl, ?_, by norm_num⟩
  simp [longTechnicalMsg, String.length]

/-- Any translation produced by the lookup loop is one of the table's
fixed friendly messages. -/
theorem findTranslation_mem (et : String) (l : List (String × String)) (f : String)
    (h : SafeExecution.findTranslation et l = some f) : f ∈ l.map Prod.snd := by
  induction l with
  | nil => simp [SafeExecution.findTranslation] at h
  | cons p rest ih =>
      by_cases hc : SafeExecution.strContains et p.1 = true
      · simp [SafeExecution.findTranslation, hc] at h
        simp [h]
      · simp [SafeExecution.findTranslation, hc] at h
        simpa using Or.inr (ih h)

/-- C7 amended: `safe_execution._generate_user_friendly_error` does bound
its output — at most 171 characters in every branch (fixed prefix plus a
technical part truncated to 150 characters and an ellipsis; translation
hits truncate to 100) — and on the default branch a technical message
longer than 150 characters is cut to exactly its first 150 characters plus
`"..."`.  The other boundary, `safety.safe_execute`, performs no
truncation at all (see the counterexample). -/
theorem generate_user_friendly_error_truncates :
    (∀ e : PyExc, (SafeExecution.generate_user_friendly_error e).length ≤ 171) ∧
    (∀ e : PyExc,
        SafeExecution.strContains (SafeExecution.strLower e.typeName) "com_error" = false →
        SafeExecution.strContains (SafeExecution.typeRepr e) "pywintypes" = false →
        SafeExecution.findTranslation e.typeName SafeExecution.translations = none →
        150 < e.msg.data.length →
        SafeExecution.generate_user_friendly_error e =
          "Operation failed: " ++ (String.mk (e.msg.data.take 150) ++ "...")) := by
  constructor
  · intro e
    unfold SafeExecution.generate_user_friendly_error
    dsimp only
    split
    · decide
    · split
      · rename_i f htr
        have hf : f ∈ SafeExecution.translations.map Prod.snd :=
          findTranslation_mem _ _ _ htr
        have hflen : f.length ≤ 51 := by
          fin_cases hf <;> decide
        have htake : (String.mk (e.msg.data.take 100)).length ≤ 100 := by
          rw [strLength_mk, List.length_take]
          exact Nat.min_le_left _ _
        simp only [String.length_append]
        have h2 : (": " : String).length = 2 := by decide
        omega
      · split
        · simp only [String.length_append]
          have h1 : ("Operation failed: " : String).length = 18 := by decide
          have h2 : (String.mk (e.msg.data.take 150)).length ≤ 150 := by
            rw [strLength_mk, List.length_take]
            exact Nat.min_le_left _ _
          have h3 : ("..." : String).length = 3 := by decide
          omega
        · rename_i hlen
          simp only [String.length_append]
          have h1 : ("Operation failed: " : String).length = 18 := by decide
          have h2 : e.msg.length ≤ 150 := by
            rw [show e.msg.length = e.msg.data.length from rfl]
            omega
          omega
  · intro e hcom1 hcom2 htr hlen
    unfold SafeExecution.generate_user_friendly_error
    dsimp only
    rw [hcom1, hcom2]
    simp only [Bool.or_self, Bool.false_eq_true, if_false]
    rw [htr]
    simp only [gt_iff_lt, hlen, if_true]

/-- C7 amended witness: a 200-character message with an untranslated type
is cut to 150 characters plus an ellipsis, and the bound holds for it. -/
theorem generate_user_friendly_error_truncates_witness :
    (SafeExecution.generate_user_friendly_error ⟨"ZeroDivisionError", longTechnicalMsg⟩).length ≤ 171 ∧
    SafeExecution.generate_user_friendly_error ⟨"ZeroDivisionError", longTechnicalMsg⟩ =
      "Operation failed: " ++ (String.mk (longTechnicalMsg.data.take 150) ++ "...") :=
  ⟨generate_user_friendly_error_truncates.1 ⟨"ZeroDivisionError", longTechnicalMsg⟩,
   generate_user_friendly_error_truncates.2 ⟨"ZeroDivisionError", longTechnicalMsg⟩
     (by decide) (by decide) (by decide) (by decide)⟩

/-! ## Claims C5 and C8 — duplicate registration and tool listing -/

/-- Generic Python dict overwrite `d[nameOf t] = t`, the effect both
overwriting registries have on a duplicate name. -/
def dictOverwrite {τ : Type} (nameOf : τ → String) :
    List (String × τ) → τ → List (String × τ)
  | [], t => [(nameOf t, t)]
  | (k, v) :: rest, t =>
      if k = nameOf t then (k, t) :: rest else (k, v) :: dictOverwrite nameOf rest t

/-- The observable outcome of `app.core.registry.ToolRegistry.register_tool`:
`none` when it raises, the new table when it succeeds. -/
def registerOutcomeCore (tools : CoreRegistry.Tools) (t : BaseTool) :
    Option CoreRegistry.Tools :=
  (CoreRegistry.register_tool tools t).toOption

/-- The observable outcome of
`app.core.tool_registry.ToolRegistry.register_tool` (never raises). -/
def registerOutcomeTR (tools : CoreToolRegistry.Tools) (t : ToolInterface.BaseTool) :
    Option CoreToolRegistry.Tools :=
  some (CoreToolRegistry.register_tool tools t).1

/-- The observable outcome of
`app.interfaces.tool_interface.ToolRegistry.register` (never raises). -/
def registerOutcomeTI (tools : List (String × ToolInterface.BaseTool))
    (t : ToolInterface.BaseTool) : Option (List (String × ToolInterface.BaseTool)) :=
  some (ToolInterface.ToolRegistry.register tools t)

/-- "Reject with an error" on every duplicate registration. -/
def rejectsOnDup {τ : Type} (nameOf : τ → String)
    (f : List (String × τ) → τ → Option (List (String × τ))) : Prop :=
  ∀ tools t, nameOf t ∈ tools.map Prod.fst → f tools t = none

/-- "Overwrite the existing tool" on every duplicate registration. -/
def overwritesOnDup {τ : Type} (nameOf : τ → String)
    (f : List (String × τ) → τ → Option (List (String × τ))) : Prop :=
  ∀ tools t, nameOf t ∈ tools.map Prod.fst → f tools t = some (dictOverwrite nameOf tools t)

/-- C5 as claimed: every `register` implementation in the codebase follows
the same duplicate policy — all reject, or all overwrite. -/
def uniformDuplicatePolicy : Prop :=
  (rejectsOnDup BaseTool.name registerOutcomeCore ∧
   rejectsOnDup ToolInterface.BaseTool.name registerOutcomeTR ∧
   rejectsOnDup ToolInterface.BaseTool.name registerOutcomeTI) ∨
  (overwritesOnDup BaseTool.name registerOutcomeCore ∧
   overwritesOnDup ToolInterface.BaseTool.name registerOutcomeTR ∧
   overwritesOnDup ToolInterface.BaseTool.name registerOutcomeTI)

/-- Dummy capabilities used by the registration/listing theorems. -/
def toolA : BaseTool := ⟨"a", "A", fun _ => .ok (.inr .null)⟩

/-- A second capability sharing `toolA`'s name. -/
def toolA2 : BaseTool := ⟨"a", "A2", fun _ => .ok (.inr .null)⟩

/-- A capability named `b`. -/
def toolB : BaseTool := ⟨"b", "B", fun _ => .ok (.inr .null)⟩

/-- A `tool_interface`-contract capability named `a`. -/
def tiToolA : ToolInterface.BaseTool := ⟨"a", "A", fun _ => .ok (.inr .null)⟩

/-- A second `tool_interface` capability sharing `tiToolA`'s name. -/
def tiToolA2 : ToolInterface.BaseTool := ⟨"a", "A2", fun _ => .ok (.inr .null)⟩

/-- C5 counterexample: the implementations mix both policies — on the same
duplicate name, `app.core.registry` rejects (raises `ValueError`) while
`app.core.tool_registry` overwrites — so no single documented policy holds
throughout the system. -/
theorem duplicate_policy_counterexample : ¬ uniformDuplicatePolicy := by
  intro h
  rcases h with ⟨_, htr, _⟩ | ⟨hc, _, _⟩
  · have h1 := htr [("a", tiToolA)] tiToolA2 (by simp [tiToolA2])
    simp [registerOutcomeTR] at h1
  · have h2 := hc [("a", toolA)] toolA2 (by simp [toolA2])
    simp [registerOutcomeCore, CoreRegistry.register_tool, CoreRegistry.toolNames,
      toolA2, Except.toOption] at h2

/-- `tool_registry`'s dict write equals the generic overwrite. -/
theorem registerDict_eq_dictOverwrite (tools : CoreToolRegistry.Tools)
    (t : ToolInterface.BaseTool) :
    CoreToolRegistry.register_tool.registerDict tools t =
      dictOverwrite ToolInterface.BaseTool.name tools t := by
  induction tools with
  | nil => rfl
  | cons p rest ih =>
      obtain ⟨k, v⟩ := p
      by_cases hk : k = t.name
      · simp [CoreToolRegistry.register_tool.registerDict, dictOverwrite, hk]
      · simp [CoreToolRegistry.register_tool.registerDict, dictOverwrite, hk, ih]

/-- `tool_interface`'s classmethod write equals the generic overwrite. -/
theorem tiRegister_eq_dictOverwrite (tools : List (String × ToolInterface.BaseTool))
    (t : ToolInterface.BaseTool) :
    ToolInterface.ToolRegistry.register tools t =
      dictOverwrite ToolInterface.BaseTool.name tools t := by
  induction tools with
  | nil => rfl
  | cons p rest ih =>
      obtain ⟨k, v⟩ := p
      by_cases hk : k = t.name
      · simp [ToolInterface.ToolRegistry.register, dictOverwrite, hk]
      · simp [ToolInterface.ToolRegistry.register, dictOverwrite, hk, ih]

/-- C5 amended: the three `register` implementations disagree on
duplicates.  `app.core.registry.register_tool` rejects every duplicate
with `ValueError`; `app.core.tool_registry.register_tool` overwrites and
flags the duplicate with its warning; `tool_interface.ToolRegistry.register`
overwrites silently. -/
theorem duplicate_policies_disagree :
    (∀ (tools : CoreRegistry.Tools) (t : BaseTool),
        t.name ∈ CoreRegistry.toolNames tools →
        CoreRegistry.register_tool tools t =
          .error ⟨"ValueError", "Tool \x27" ++ t.name ++ "\x27 is already registered"⟩) ∧
    (∀ (tools : CoreToolRegistry.Tools) (t : ToolInterface.BaseTool),
        CoreToolRegistry.register_tool tools t =
          (dictOverwrite ToolInterface.BaseTool.name tools t,
            decide (t.name ∈ CoreToolRegistry.toolNames tools))) ∧
    (∀ (tools : List (String × ToolInterface.BaseTool)) (t : ToolInterface.BaseTool),
        ToolInterface.ToolRegistry.register tools t =
          dictOverwrite ToolInterface.BaseTool.name tools t) := by
  refine ⟨?_, ?_, tiRegister_eq_dictOverwrite⟩
  · intro tools t h
    simp [CoreRegistry.register_tool, h]
  · intro tools t
    simp [CoreToolRegistry.register_tool, registerDict_eq_dictOverwrite]

/-- C5 amended witness: the three behaviors at one concrete duplicate. -/
theorem duplicate_policies_disagree_witness :
    CoreRegistry.register_tool [("a", toolA)] toolA2 =
      .error ⟨"ValueError", "Tool \x27a\x27 is already registered"⟩ ∧
    CoreToolRegistry.register_tool [("a", tiToolA)] tiToolA2 = ([("a", tiToolA2)], true) ∧
    ToolInterface.ToolRegistry.register [("a", tiToolA)] tiToolA2 = [("a", tiToolA2)] :=
  ⟨duplicate_policies_disagree.1 [("a", toolA)] toolA2 (by simp [toolA2, CoreRegistry.toolNames]),
   duplicate_policies_disagree.2.1 [("a", tiToolA)] tiToolA2,
   duplicate_policies_disagree.2.2 [("a", tiToolA)] tiToolA2⟩

/-- `lexLe` is total. -/
theorem lexLe_total : ∀ a b : List Char,
    CoreRegistry.lexLe a b = true ∨ CoreRegistry.lexLe b a = true := by
  intro a
  induction a with
  | nil => intro b; left; rfl
  | cons x xs ih =>
      intro b
      cases b with
      | nil => right; rfl
      | cons y ys =>
          by_cases h1 : x.toNat < y.toNat
          · left; simp [CoreRegistry.lexLe, h1]
          · by_cases h2 : y.toNat < x.toNat
            · right; simp [CoreRegistry.lexLe, h2]
            · rcases ih ys with h | h
              · left; simp [CoreRegistry.lexLe, h1, h2, h]
              · right; simp [CoreRegistry.lexLe, h1, h2, h]

/-- `lexLe` is transitive. -/
theorem lexLe_trans : ∀ a b c : List Char,
    CoreRegistry.lexLe a b = true → CoreRegistry.lexLe b c = true →
    CoreRegistry.lexLe a c = true := by
  intro a
  induction a with
  | nil => intro b c _ _; rfl
  | cons x xs ih =>
      intro b c hab hbc
      cases b with
      | nil => simp [CoreRegistry.lexLe] at hab
      | cons y ys =>
          cases c with
          | nil => simp [CoreRegistry.lexLe] at hbc
          | cons z zs =>
              by_cases hxy : x.toNat < y.toNat
              · by_cases hyz : y.toNat < z.toNat
                · simp [CoreRegistry.lexLe, Nat.lt_trans hxy hyz]
                · by_cases hzy : z.toNat < y.toNat
                  · exfalso; simp [CoreRegistry.lexLe, hyz, hzy] at hbc
                  · have : x.toNat < z.toNat := by omega
                    simp [CoreRegistry.lexLe, this]
              · by_cases hyx : y.toNat < x.toNat
                · exfalso; simp [CoreRegistry.lexLe, hxy, hyx] at hab
                · have hab' : CoreRegistry.lexLe xs ys = true := by
                    simpa [CoreRegistry.lexLe, hxy, hyx] using hab
                  by_cases hyz : y.toNat < z.toNat
                  · have : x.toNat < z.toNat := by omega
                    simp [CoreRegistry.lexLe, this]
                  · by_cases hzy : z.toNat < y.toNat
                    · exfalso; simp [CoreRegistry.lexLe, hyz, hzy] at hbc
                    · have hbc' : CoreRegistry.lexLe ys zs = true := by
                        simpa [CoreRegistry.lexLe, hyz, hzy] using hbc
                      have hxz : ¬ x.toNat < z.toNat := by omega
                      have hzx : ¬ z.toNat < x.toNat := by omega
                      simp [CoreRegistry.lexLe, hxz, hzx, ih ys zs hab' hbc']

instance : IsTotal (String × BaseTool) CoreRegistry.itemLe :=
  ⟨fun p q => lexLe_total p.1.data q.1.data⟩

instance : IsTrans (String × BaseTool) CoreRegistry.itemLe :=
  ⟨fun p q r => lexLe_trans p.1.data q.1.data r.1.data⟩

/-- In a registry with pairwise-distinct names, exactly one entry carries
a given registered name and its description. -/
theorem countP_entry_unique (tools : CoreRegistry.Tools) (n d : String) (t : BaseTool)
    (hnd : (CoreRegistry.toolNames tools).Nodup) (hmem : (n, t) ∈ tools)
    (hdesc : t.description = d) :
    tools.countP (fun p => decide (p.1 = n) && decide (p.2.description = d)) = 1 := by
  induction tools with
  | nil => cases hmem
  | cons hd tl ih =>
      obtain ⟨k, v⟩ := hd
      have hnd' : k ∉ (CoreRegistry.toolNames tl) ∧ (CoreRegistry.toolNames tl).Nodup := by
        simpa [CoreRegistry.toolNames] using hnd
      rcases List.mem_cons.mp hmem with heq | hmem'
      · obtain ⟨hn, ht⟩ := Prod.mk.injEq .. ▸ heq
        have hzero : tl.countP (fun p => decide (p.1 = n) && decide (p.2.description = d)) = 0 := by
          rw [List.countP_eq_zero]
          intro p hp
          have : p.1 ∈ CoreRegistry.toolNames tl := List.mem_map_of_mem Prod.fst hp
          have hne : p.1 ≠ n := by
            intro hcon
            exact hnd'.1 (hn ▸ hcon ▸ this)
          simp [hne]
        rw [List.countP_cons, hzero]
        simp [← hn, ← ht, hdesc]
      · have hne : k ≠ n := by
          intro hcon
          have : n ∈ CoreRegistry.toolNames tl :=
            List.mem_map_of_mem Prod.fst hmem'
          exact hnd'.1 (hcon ▸ this)
        rw [List.countP_cons]
        simp only [hne, decide_eq_true_eq, false_and, decide_eq_false_iff_not]
        have := ih hnd'.2 hmem'
        simp [this, hne]

/-- C8 counterexample: register `b` then `a` in a fresh
`app.core.registry.ToolRegistry`; the listing is sorted by name —
`a` before `b` — and so does not follow insertion order (`b` before `a`). -/
theorem list_tools_not_insertion_order :
    CoreRegistry.register_tool [] toolB = .ok [("b", toolB)] ∧
    CoreRegistry.register_tool [("b", toolB)] toolA = .ok [("b", toolB), ("a", toolA)] ∧
    (CoreRegistry.sortedItems [("b", toolB), ("a", toolA)]).map Prod.fst = ["a", "b"] ∧
    CoreRegistry.toolNames [("b", toolB), ("a", toolA)] = ["b", "a"] ∧
    CoreRegistry.list_tools [("b", toolB), ("a", toolA)] =
      "Available Tools:\n  - a: A\n  - b: B" ∧
    (["a", "b"] : List String) ≠ ["b", "a"] :=
  ⟨rfl, rfl, rfl, rfl, rfl, by decide⟩

/-- C8 amended: `app.core.registry.list_tools` lists each registered
name/description pair exactly once, but in name-sorted order rather than
insertion order; `app.core.tool_registry.list_tools` returns the names in
insertion order — with no descriptions at all. -/
theorem list_tools_sorted_unique_entry :
    (∀ (tools : CoreRegistry.Tools) (n d : String) (t : BaseTool),
        (CoreRegistry.toolNames tools).Nodup → (n, t) ∈ tools → t.description = d →
        (CoreRegistry.sortedItems tools).countP
            (fun p => decide (p.1 = n) && decide (p.2.description = d)) = 1) ∧
    (∀ tools : CoreRegistry.Tools,
        List.Sorted CoreRegistry.itemLe (CoreRegistry.sortedItems tools)) ∧
    (∀ tools : CoreToolRegistry.Tools,
        CoreToolRegistry.list_tools tools = CoreToolRegistry.toolNames tools) := by
  refine ⟨?_, ?_, fun _ => rfl⟩
  · intro tools n d t hnd hmem hdesc
    unfold CoreRegistry.sortedItems
    rw [(List.perm_insertionSort CoreRegistry.itemLe tools).countP_eq]
    exact countP_entry_unique tools n d t hnd hmem hdesc
  · intro tools
    exact List.sorted_insertionSort CoreRegistry.itemLe tools

/-- The canonical `x`/`D` capability of the round-trip scenario. -/
def xTool : BaseTool := ⟨"x", "D", fun _ => .ok (.inr .null)⟩

/-- C8 amended witness: the `x: D` round trip on a concrete registry. -/
theorem list_tools_sorted_unique_entry_witness :
    (CoreRegistry.sortedItems [("b", toolB), ("x", xTool)]).countP
        (fun p => decide (p.1 = "x") && decide (p.2.description = "D")) = 1 ∧
    List.Sorted CoreRegistry.itemLe (CoreRegistry.sortedItems [("b", toolB), ("x", xTool)]) ∧
    CoreToolRegistry.list_tools [("a", tiToolA)] = CoreToolRegistry.toolNames [("a", tiToolA)] :=
  ⟨list_tools_sorted_unique_entry.1 [("b", toolB), ("x", xTool)] "x" "D" xTool
      (by simp [CoreRegistry.toolNames]) (by simp) rfl,
   list_tools_sorted_unique_entry.2.1 [("b", toolB), ("x", xTool)],
   list_tools_sorted_unique_entry.2.2 [("a", tiToolA)]⟩

/-! ## Route-decision shape lemmas -/

/-- Looking up the key just inserted finds the inserted value. -/
theorem lookup_objInsert_self (kvs : List (String × Json)) (k : String) (v : Json) :
    Json.lookup (Json.objInsert kvs k v) k = some v := by
  induction kvs with
  | nil => simp [Json.objInsert, Json.lookup]
  | cons p rest ih =>
      obtain ⟨k', v'⟩ := p
      by_cases hk : k' = k
      · simp [Json.objInsert, Json.lookup, hk]
      · simp [Json.objInsert, Json.lookup, hk, ih]

/-- Inserting one key leaves lookups of other keys unchanged. -/
theorem lookup_objInsert_ne (kvs : List (String × Json)) (k k' : String) (v : Json)
    (h : k ≠ k') :
    Json.lookup (Json.objInsert kvs k' v) k = Json.lookup kvs k := by
  induction kvs with
  | nil =>
      simp only [Json.objInsert, Json.lookup]
      rw [if_neg (fun hc => h hc.symm)]
  | cons p rest ih =>
      obtain ⟨k0, v0⟩ := p
      simp only [Json.objInsert]
      by_cases h0 : k0 = k'
      · rw [if_pos h0]
        have hk0 : ¬ k0 = k := fun hc => h (hc.symm.trans h0)
        simp only [Json.lookup]
        rw [if_neg hk0, if_neg hk0]
      · rw [if_neg h0]
        simp only [Json.lookup]
        by_cases hk0 : k0 = k
        · rw [if_pos hk0, if_pos hk0]
        · rw [if_neg hk0, if_neg hk0]
          exact ih

/-- Insertion preserves the presence of every key. -/
theorem isSome_lookup_objInsert (kvs : List (String × Json)) (k k' : String) (v : Json)
    (h : (Json.lookup kvs k).isSome = true) :
    (Json.lookup (Json.objInsert kvs k' v) k).isSome = true := by
  by_cases hk : k = k'
  · subst hk; rw [lookup_objInsert_self]; rfl
  · rw [lookup_objInsert_ne kvs k k' v hk]; exact h

/-- A successful string subscript means the value was a dict holding the
key. -/
theorem pyGetItem_ok (j : Json) (k : String) (v : Json)
    (h : Json.pyGetItem j k = .ok v) :
    ∃ kvs, j = .obj kvs ∧ Json.lookup kvs k = some v := by
  cases j with
  | obj kvs =>
      refine ⟨kvs, rfl, ?_⟩
      cases hl : Json.lookup kvs k with
      | none => rw [Json.pyGetItem, hl] at h; cases h
      | some w => rw [Json.pyGetItem, hl] at h; cases h; rfl
  | null => cases h
  | bool b => cases h
  | num n => cases h
  | str s => cases h
  | arr xs => cases h

/-- When the backfill step returns a dict, that dict holds both required
keys. -/
theorem backfill_ok_obj_keys (result : Json) (kvs : List (String × Json))
    (h : SemanticRouter.backfillDefaults result = .ok (.obj kvs)) :
    (Json.lookup kvs "tool_name").isSome = true ∧
    (Json.lookup kvs "parameters").isSome = true := by
  cases result with
  | null => simp [SemanticRouter.backfillDefaults, Json.pyContains, bind, Except.bind] at h
  | bool b => simp [SemanticRouter.backfillDefaults, Json.pyContains, bind, Except.bind] at h
  | num n => simp [SemanticRouter.backfillDefaults, Json.pyContains, bind, Except.bind] at h
  | str s0 =>
      by_cases hb : listContainsRun "tool_name".data s0.data = true
      · by_cases hp : listContainsRun "parameters".data s0.data = true
        · simp [SemanticRouter.backfillDefaults, Json.pyContains, hb, hp, bind, Except.bind,
            pure, Except.pure] at h
        · simp [SemanticRouter.backfillDefaults, Json.pyContains, Json.pySetItem, hb, hp,
            bind, Except.bind, pure, Except.pure] at h
      · simp [SemanticRouter.backfillDefaults, Json.pyContains, Json.pySetItem, hb,
          bind, Except.bind, pure, Except.pure] at h
  | arr xs =>
      by_cases hb : xs.any (fun x => x.eqStr "tool_name") = true
      · by_cases hp : xs.any (fun x => x.eqStr "parameters") = true
        · simp [SemanticRouter.backfillDefaults, Json.pyContains, hb, hp, bind, Except.bind,
            pure, Except.pure] at h
        · simp [SemanticRouter.backfillDefaults, Json.pyContains, Json.pySetItem, hb, hp,
            bind, Except.bind, pure, Except.pure] at h
      · simp [SemanticRouter.backfillDefaults, Json.pyContains, Json.pySetItem, hb,
          bind, Except.bind, pure, Except.pure] at h
  | obj entries =>
      by_cases hb : (Json.lookup entries "tool_name").isSome = true
      · by_cases hp : (Json.lookup entries "parameters").isSome = true
        · have hkvs : entries = kvs := by
            simpa [SemanticRouter.backfillDefaults, Json.pyContains, hb, hp, bind,
              Except.bind, pure, Except.pure] using h
          subst hkvs
          exact ⟨hb, hp⟩
        · have hkvs : Json.objInsert entries "parameters" (.obj []) = kvs := by
            simpa [SemanticRouter.backfillDefaults, Json.pyContains, Json.pySetItem, hb, hp,
              bind, Except.bind, pure, Except.pure] using h
          subst hkvs
          exact ⟨isSome_lookup_objInsert _ _ _ _ hb,
            by rw [lookup_objInsert_self]; rfl⟩
      · by_cases hp :
            (Json.lookup (Json.objInsert entries "tool_name" (.str "general_chat"))
              "parameters").isSome = true
        · have hkvs : Json.objInsert entries "tool_name" (.str "general_chat") = kvs := by
            simpa [SemanticRouter.backfillDefaults, Json.pyContains, Json.pySetItem, hb, hp,
              bind, Except.bind, pure, Except.pure] using h
          subst hkvs
          exact ⟨by rw [lookup_objInsert_self]; rfl, hp⟩
        · have hkvs :
              Json.objInsert (Json.objInsert entries "tool_name" (.str "general_chat"))
                "parameters" (.obj []) = kvs := by
            simpa [SemanticRouter.backfillDefaults, Json.pyContains, Json.pySetItem, hb, hp,
              bind, Except.bind, pure, Except.pure] using h
          subst hkvs
          refine ⟨?_, by rw [lookup_objInsert_self]; rfl⟩
          exact isSome_lookup_objInsert _ _ _ _ (by rw [lookup_objInsert_self]; rfl)

/-- When `_parse_response` returns a dict, it holds both required keys. -/
theorem parse_response_ok_obj_keys (s : String) (kvs : List (String × Json))
    (h : SemanticRouter.parse_response s = .ok (.obj kvs)) :
    (Json.lookup kvs "tool_name").isSome = true ∧
    (Json.lookup kvs "parameters").isSome = true := by
  unfold SemanticRouter.parse_response at h
  cases hload : SemanticRouter.jsonLoads (SemanticRouter.clean_json_response s) with
  | none =>
      rw [hload] at h
      simp only [Except.ok.injEq, Json.obj.injEq] at h
      subst h
      exact ⟨rfl, rfl⟩
  | some result =>
      rw [hload] at h
      exact backfill_ok_obj_keys result kvs h

/-- When the router's `try` body succeeds, its value is a dict holding
both required keys. -/
theorem routeTry_ok_shape (names : List String) (outcome : Except PyExc String) (r : Json)
    (h : SemanticRouter.routeTry names outcome = .ok r) :
    ∃ kvs, r = .obj kvs ∧ (Json.lookup kvs "tool_name").isSome = true ∧
      (Json.lookup kvs "parameters").isSome = true := by
  unfold SemanticRouter.routeTry at h
  cases outcome with
  | error e => simp [bind, Except.bind] at h
  | ok llm =>
      cases hp : SemanticRouter.parse_response llm with
      | error e =>
          simp only [bind, Except.bind, hp] at h
          exact Except.noConfusion h
      | ok result =>
          cases hg : result.pyGetItem "tool_name" with
          | error e =>
              simp only [bind, Except.bind, hp, hg] at h
              exact Except.noConfusion h
          | ok tn =>
              simp only [bind, Except.bind, hp, hg] at h
              obtain ⟨entries, hre, hlk⟩ := pyGetItem_ok result "tool_name" tn hg
              subst hre
              obtain ⟨h1, h2⟩ := parse_response_ok_obj_keys llm entries hp
              split at h
              · have heq : Json.obj entries = r := by simpa [pure, Except.pure] using h
                exact ⟨entries, heq.symm, h1, h2⟩
              · cases hc : SemanticRouter.registryContains names tn with
                | error e =>
                    simp only [hc] at h
                    exact Except.noConfusion h
                | ok b =>
                    simp only [hc] at h
                    split at h
                    · have heq : Json.obj entries = r := by simpa [pure, Except.pure] using h
                      exact ⟨entries, heq.symm, h1, h2⟩
                    · have heq :
                          Json.obj (Json.objInsert entries "warning"
                            (.str ("Tool \x27" ++ Json.pyStr tn ++ "\x27 not found in registry")))
                            = r := by
                        simpa [Json.pySetItem] using h
                      exact ⟨_, heq.symm, isSome_lookup_objInsert _ _ _ _ h1,
                        isSome_lookup_objInsert _ _ _ _ h2⟩

/-- Every decision `route` returns is a dict with the `tool_name` and
`parameters` keys. -/
theorem route_always_obj_with_keys (names : List String) (q : String)
    (outcome : Except PyExc String) :
    ∃ kvs, SemanticRouter.route names q outcome = .obj kvs ∧
      (Json.lookup kvs "tool_name").isSome = true ∧
      (Json.lookup kvs "parameters").isSome = true := by
  unfold SemanticRouter.route
  split
  · exact ⟨_, rfl, rfl, rfl⟩
  · cases hr : SemanticRouter.routeTry names outcome with
    | ok r =>
        obtain ⟨kvs, hkvs, h1, h2⟩ := routeTry_ok_shape names outcome r hr
        exact ⟨kvs, hkvs ▸ rfl, h1, h2⟩
    | error e => exact ⟨_, rfl, rfl, rfl⟩

/-! ## Claim C9 — empty and whitespace-only queries -/

/-- C9: a query that is empty or all whitespace makes `route` return the
`general_chat` decision with `{"message": ""}` and the `Empty query` error
entry — for every classifier outcome, i.e. without consulting the
classifier at all. -/
theorem route_whitespace_query (names : List String) (outcome : Except PyExc String)
    (q : String) (h : q.data.all pyIsSpace = true) :
    SemanticRouter.route names q outcome =
      .obj [("tool_name", .str "general_chat"),
            ("parameters", .obj [("message", .str "")]),
            ("error", .str "Empty query")] := by
  have hall : ∀ c ∈ q.data, pyIsSpace c := by simpa [List.all_eq_true] using h
  have hdrop : q.data.dropWhile pyIsSpace = [] := by
    rw [List.dropWhile_eq_nil_iff]
    exact hall
  have hcond : (q.data.isEmpty || (pyStrip q.data).isEmpty) = true := by
    simp [pyStrip, hdrop]
  unfold SemanticRouter.route
  rw [if_pos hcond]

/-- C9 witness: a three-space query with a registered tool and an
arbitrary classifier reply. -/
theorem route_whitespace_query_witness :
    SemanticRouter.route ["set_volume"] "   "
        (.ok "\x7b\"tool_name\": \"set_volume\"\x7d") =
      .obj [("tool_name", .str "general_chat"),
            ("parameters", .obj [("message", .str "")]),
            ("error", .str "Empty query")] :=
  route_whitespace_query ["set_volume"] (.ok "\x7b\"tool_name\": \"set_volume\"\x7d") "   "
    (by decide)

/-! ## Claim C10 — decisions always carry `tool_name` and `parameters` -/

/-- C10: every decision `route` returns is a dict with both the
`tool_name` and the `parameters` key; every dict `_parse_response` returns
has both keys; and when the classifier's JSON object lacks a field, it is
backfilled with the default — `"general_chat"` for `tool_name`, the empty
map for `parameters`. -/
theorem route_dicts_contain_required_keys :
    (∀ (names : List String) (q : String) (outcome : Except PyExc String),
        ∃ kvs, SemanticRouter.route names q outcome = .obj kvs ∧
          (Json.lookup kvs "tool_name").isSome = true ∧
          (Json.lookup kvs "parameters").isSome = true) ∧
    (∀ (s : String) (kvs : List (String × Json)),
        SemanticRouter.parse_response s = .ok (.obj kvs) →
        (Json.lookup kvs "tool_name").isSome = true ∧
        (Json.lookup kvs "parameters").isSome = true) ∧
    (∀ (s : String) (kvs0 : List (String × Json)),
        SemanticRouter.jsonLoads (SemanticRouter.clean_json_response s) = some (.obj kvs0) →
        Json.lookup kvs0 "tool_name" = none →
        ∃ kvs, SemanticRouter.parse_response s = .ok (.obj kvs) ∧
          Json.lookup kvs "tool_name" = some (.str "general_chat")) ∧
    (∀ (s : String) (kvs0 : List (String × Json)),
        SemanticRouter.jsonLoads (SemanticRouter.clean_json_response s) = some (.obj kvs0) →
        Json.lookup kvs0 "parameters" = none →
        ∃ kvs, SemanticRouter.parse_response s = .ok (.obj kvs) ∧
          Json.lookup kvs "parameters" = some (.obj [])) := by
  refine ⟨route_always_obj_with_keys, parse_response_ok_obj_keys, ?_, ?_⟩
  · intro s kvs0 hload hnone
    unfold SemanticRouter.parse_response
    rw [hload]
    have hb : (Json.lookup kvs0 "tool_name").isSome = false := by simp [hnone]
    by_cases hp :
        (Json.lookup (Json.objInsert kvs0 "tool_name" (.str "general_chat"))
          "parameters").isSome = true
    · refine ⟨Json.objInsert kvs0 "tool_name" (.str "general_chat"), ?_,
        lookup_objInsert_self _ _ _⟩
      simp [SemanticRouter.backfillDefaults, Json.pyContains, Json.pySetItem, hb, hp,
        bind, Except.bind, pure, Except.pure]
    · refine ⟨Json.objInsert (Json.objInsert kvs0 "tool_name" (.str "general_chat"))
        "parameters" (.obj []), ?_, ?_⟩
      · simp [SemanticRouter.backfillDefaults, Json.pyContains, Json.pySetItem, hb, hp,
          bind, Except.bind, pure, Except.pure]
      · rw [lookup_objInsert_ne _ _ _ _ (by decide)]
        exact lookup_objInsert_self _ _ _
  · intro s kvs0 hload hnone
    unfold SemanticRouter.parse_response
    rw [hload]
    by_cases hb : (Json.lookup kvs0 "tool_name").isSome = true
    · have hp : (Json.lookup kvs0 "parameters").isSome = false := by simp [hnone]
      refine ⟨Json.objInsert kvs0 "parameters" (.obj []), ?_,
        lookup_objInsert_self _ _ _⟩
      simp [SemanticRouter.backfillDefaults, Json.pyContains, Json.pySetItem, hb, hp,
        bind, Except.bind, pure, Except.pure]
    · have hmid :
          Json.lookup (Json.objInsert kvs0 "tool_name" (.str "general_chat")) "parameters"
            = none := by
        rw [lookup_objInsert_ne _ _ _ _ (by decide)]
        exact hnone
      have hp :
          (Json.lookup (Json.objInsert kvs0 "tool_name" (.str "general_chat"))
            "parameters").isSome = false := by simp [hmid]
      refine ⟨Json.objInsert (Json.objInsert kvs0 "tool_name" (.str "general_chat"))
        "parameters" (.obj []), ?_, lookup_objInsert_self _ _ _⟩
      simp [SemanticRouter.backfillDefaults, Json.pyContains, Json.pySetItem, hb, hp,
        bind, Except.bind, pure, Except.pure]

/-- C10 witness: a concrete classifier reply `{"foo": 1}` with neither
required field gets both defaults, and the route conjunct at a concrete
query. -/
theorem route_dicts_contain_required_keys_witness :
    (∃ kvs, SemanticRouter.route [] "hi" (.ok "x") = .obj kvs ∧
      (Json.lookup kvs "tool_name").isSome = true ∧
      (Json.lookup kvs "parameters").isSome = true) ∧
    ((Json.lookup [("foo", Json.num 1), ("tool_name", Json.str "general_chat"),
        ("parameters", Json.obj [])] "tool_name").isSome = true ∧
     (Json.lookup [("foo", Json.num 1), ("tool_name", Json.str "general_chat"),
        ("parameters", Json.obj [])] "parameters").isSome = true) ∧
    (∃ kvs, SemanticRouter.parse_response "\x7b\"foo\": 1\x7d" = .ok (.obj kvs) ∧
      Json.lookup kvs "tool_name" = some (.str "general_chat")) ∧
    (∃ kvs, SemanticRouter.parse_response "\x7b\"foo\": 1\x7d" = .ok (.obj kvs) ∧
      Json.lookup kvs "parameters" = some (.obj [])) :=
  ⟨route_dicts_contain_required_keys.1 [] "hi" (.ok "x"),
   route_dicts_contain_required_keys.2.1 "\x7b\"foo\": 1\x7d"
     [("foo", Json.num 1), ("tool_name", Json.str "general_chat"), ("parameters", Json.obj [])]
     rfl,
   route_dicts_contain_required_keys.2.2.1 "\x7b\"foo\": 1\x7d" [("foo", Json.num 1)] rfl rfl,
   route_dicts_contain_required_keys.2.2.2 "\x7b\"foo\": 1\x7d" [("foo", Json.num 1)] rfl rfl⟩

/-! ## Claim C4 — router degradation on classifier failure -/

/-- C4 counterexample: with a live registry and a non-empty query, a fully
unparseable classifier reply (`"hello"`) resolves to `general_chat`, but
the decision carries no `warnings`/`error` entry at all — the only marker
is the `parse_error` flag buried inside `parameters`. -/
theorem route_unparseable_no_error_entry :
    SemanticRouter.route ["set_volume"] "set the volume" (.ok "hello") =
      .obj [("tool_name", .str "general_chat"),
            ("parameters", .obj [("message", .str "hello"), ("parse_error", .bool true)])] ∧
    (SemanticRouter.route ["set_volume"] "set the volume" (.ok "hello")).hasKey "error" = false ∧
    (SemanticRouter.route ["set_volume"] "set the volume" (.ok "hello")).hasKey "warning" = false :=
  ⟨rfl, rfl, rfl⟩

/-- C4 amended: when the classifier call raises, `route` returns a
`general_chat` decision with a populated `error` entry; when the reply is
unparseable after all cleaning attempts, `route` returns the
`general_chat` fallback whose only marker is the `parse_error` flag inside
`parameters` (no `warnings`/`error` entry); `route` itself never raises
(it is a total function into decision dicts). -/
theorem route_failure_modes :
    (∀ (names : List String) (q : String) (e : PyExc),
        Json.objGet (SemanticRouter.route names q (.error e)) "tool_name" =
          some (.str "general_chat") ∧
        (SemanticRouter.route names q (.error e)).hasKey "error" = true) ∧
    (∀ (names : List String) (q s : String),
        (pyStrip q.data).isEmpty = false →
        SemanticRouter.jsonLoads (SemanticRouter.clean_json_response s) = none →
        SemanticRouter.route names q (.ok s) =
          .obj [("tool_name", .str "general_chat"),
                ("parameters", .obj [("message", .str s), ("parse_error", .bool true)])]) := by
  constructor
  · intro names q e
    unfold SemanticRouter.route
    split
    · exact ⟨rfl, rfl⟩
    · have hrt : SemanticRouter.routeTry names (.error e) = .error e := rfl
      rw [hrt]
      exact ⟨rfl, rfl⟩
  · intro names q s hq hload
    have hqe : q.data.isEmpty = false := by
      cases hd : q.data with
      | nil => rw [hd] at hq; simp [pyStrip] at hq
      | cons c cs => rfl
    have hF : SemanticRouter.parse_response s =
        .ok (.obj [("tool_name", .str "general_chat"),
                   ("parameters", .obj [("message", .str s), ("parse_error", .bool true)])]) := by
      unfold SemanticRouter.parse_response
      rw [hload]
    have hrt : SemanticRouter.routeTry names (.ok s) =
        .ok (.obj [("tool_name", .str "general_chat"),
                   ("parameters", .obj [("message", .str s), ("parse_error", .bool true)])]) := by
      unfold SemanticRouter.routeTry
      simp only [bind, Except.bind, hF]
      rfl
    unfold SemanticRouter.route
    rw [if_neg (by rw [hqe, hq]; simp), hrt]

/-- C4 amended witness: a connection failure and a JSON-free reply, both
at concrete inputs. -/
theorem route_failure_modes_witness :
    (Json.objGet (SemanticRouter.route [] "hello there" (.error ⟨"ConnectionError", "refused"⟩))
        "tool_name" = some (.str "general_chat") ∧
     (SemanticRouter.route [] "hello there"
        (.error ⟨"ConnectionError", "refused"⟩)).hasKey "error" = true) ∧
    SemanticRouter.route [] "hi" (.ok "no json here") =
      .obj [("tool_name", .str "general_chat"),
            ("parameters", .obj [("message", .str "no json here"),
                                ("parse_error", .bool true)])] :=
  ⟨route_failure_modes.1 [] "hello there" ⟨"ConnectionError", "refused"⟩,
   route_failure_modes.2 [] "hi" "no json here" (by decide) (by rfl)⟩

/-! ## Claim C2 — `process_command` and escaping exceptions -/

/-- A hit in the core registry is a registered entry. -/
theorem core_get_tool_mem (tools : CoreRegistry.Tools) (s : String) (t : BaseTool)
    (h : CoreRegistry.get_tool tools s = some t) : (s, t) ∈ tools := by
  induction tools with
  | nil => cases h
  | cons p rest ih =>
      obtain ⟨k, v⟩ := p
      by_cases hk : k = s
      · rw [CoreRegistry.get_tool, if_pos hk] at h
        cases h
        exact hk ▸ List.mem_cons_self _ _
      · rw [CoreRegistry.get_tool, if_neg hk] at h
        exact List.mem_cons_of_mem _ (ih h)

/-- `_format_success` never raises when the result data is a dict. -/
theorem format_success_total (tn : Option Json) (kvs : List (String × Json)) :
    ∃ s, SovereignAgent.format_success tn (.obj kvs) = .ok s := by
  unfold SovereignAgent.format_success
  dsimp only
  split
  · by_cases hb : (Json.lookup kvs "volume").isSome = true
    · obtain ⟨v, hv⟩ := Option.isSome_iff_exists.mp hb
      exact ⟨"Volume set to " ++ Json.pyStr v ++ "%",
        by simp [Json.pyContains, Json.pyGetItem, hb, hv, bind, Except.bind, pure, Except.pure]⟩
    · by_cases hm : (Json.lookup kvs "muted").isSome = true
      · obtain ⟨m, hm'⟩ := Option.isSome_iff_exists.mp hm
        exact ⟨if m.truthy then "Audio muted" else "Audio unmuted",
          by simp [Json.pyContains, Json.pyGetItem, hb, hm, hm', bind, Except.bind,
            pure, Except.pure]⟩
      · exact ⟨"Done: " ++ Json.pyStr (.obj kvs),
          by simp [Json.pyContains, hb, hm, bind, Except.bind, pure, Except.pure]⟩
  · split
    · by_cases hb : (Json.lookup kvs "brightness").isSome = true
      · obtain ⟨v, hv⟩ := Option.isSome_iff_exists.mp hb
        exact ⟨"Brightness set to " ++ Json.pyStr v ++ "%",
          by simp [Json.pyContains, Json.pyGetItem, hb, hv, bind, Except.bind,
            pure, Except.pure]⟩
      · exact ⟨"Done: " ++ Json.pyStr (.obj kvs),
          by simp [Json.pyContains, hb, bind, Except.bind, pure, Except.pure]⟩
    · split
      · exact ⟨"Launched " ++ Json.pyStr ((Json.lookup kvs "app").getD (.str "the application")),
          by simp [Json.pyGetAttrGet, bind, Except.bind, pure, Except.pure]⟩
      · split
        · by_cases hs : ((Json.lookup kvs "saved").getD .null).truthy = true
          · exact ⟨"Created Word document: " ++
                Json.pyStr ((Json.lookup kvs "filename").getD (.str "document")),
              by simp [Json.pyGetAttrGet, hs, bind, Except.bind, pure, Except.pure]⟩
          · exact ⟨"Created Word document. Use File > Save to save it.",
              by simp [Json.pyGetAttrGet, hs, bind, Except.bind, pure, Except.pure]⟩
        · split
          · exact ⟨"Read " ++ Json.pyStr ((Json.lookup kvs "rows").getD (.num 0)) ++
                " rows and " ++ Json.pyStr ((Json.lookup kvs "cols").getD (.num 0)) ++
                " columns from Excel",
              by simp [Json.pyGetAttrGet, bind, Except.bind, pure, Except.pure]⟩
          · exact ⟨"Done: " ++ Json.pyStr (.obj kvs), rfl⟩

/-- C2 counterexample: `process_command` can raise.  With `set_volume`
registered and the classifier replying
`{"tool_name": "set_volume", "parameters": null}` — well-formed JSON that
the router accepts unchanged — the dispatcher's
`tool.execute(**parameters)` unpacking raises `TypeError`, which escapes
`process_command` to its caller. -/
theorem process_command_raises_on_null_parameters :
    SovereignAgent.process_command
        [("set_volume",
          (⟨"set_volume", "Sets the system volume (0-100)",
            fun _ => .ok (.inl { success := true, data := .obj [("volume", .num 50)] })⟩ :
              BaseTool))]
        "set volume to 50"
        (.ok "\x7b\"tool_name\": \"set_volume\", \"parameters\": null\x7d") =
      .error ⟨"TypeError", "argument after ** must be a mapping"⟩ := rfl

/-- C2 amended: `process_command` returns a response string for every
query whenever the routed decision is benign — its `tool_name` is a
hashable value other than `"visual_query"`, its `parameters` value is a
dict, and successful tool results carry dict data.  Outside these
conditions (e.g. a routed `parameters: null`, see the counterexample) the
dispatcher raises, and only the interaction loop above it catches the
exception. -/
theorem process_command_returns_response (tools : CoreRegistry.Tools) (q : String)
    (outcome : Except PyExc String)
    (htn : ∀ v, Json.objGet (SemanticRouter.route (CoreRegistry.toolNames tools) q outcome)
        "tool_name" = some v → Json.hashable v = true ∧ v ≠ .str "visual_query")
    (hpar : ∀ v, Json.objGet (SemanticRouter.route (CoreRegistry.toolNames tools) q outcome)
        "parameters" = some v → v.isObj = true)
    (hdata : ∀ s t, (s, t) ∈ tools → ∀ kwargs : List (String × Json),
        (BaseTool.execute t kwargs).success = true →
        (BaseTool.execute t kwargs).data.isObj = true) :
    ∃ s, SovereignAgent.process_command tools q outcome = .ok s := by
  obtain ⟨kvs, hd, h1, h2⟩ :=
    route_always_obj_with_keys (CoreRegistry.toolNames tools) q outcome
  obtain ⟨tnv, htnv⟩ := Option.isSome_iff_exists.mp h1
  obtain ⟨pv, hpv⟩ := Option.isSome_iff_exists.mp h2
  have htn' := htn tnv (by rw [hd]; simpa [Json.objGet] using htnv)
  have hpar' := hpar pv (by rw [hd]; simpa [Json.objGet] using hpv)
  obtain ⟨pkvs, hpkvs⟩ : ∃ pkvs, pv = .obj pkvs := by
    cases pv <;> simp [Json.isObj] at hpar' ⊢
  unfold SovereignAgent.process_command
  rw [hd]
  simp only [Json.objGet, Json.hasKey, htnv, hpv, Option.getD_some, Option.map, Option.getD]
  by_cases herr : (Json.lookup kvs "error").isSome = true
  · simp [herr, pure, Except.pure]
  · have herr' : (Json.lookup kvs "error").isSome = false := by simpa using herr
    simp only [herr', Bool.false_eq_true, if_false]
    by_cases hgc : tnv.eqStr "general_chat" = true
    · simp [hgc, pure, Except.pure]
    · have hgc' : tnv.eqStr "general_chat" = false := by simpa using hgc
      have hvq : tnv.eqStr "visual_query" = false := by
        cases tnv with
        | str s0 =>
            have hne : s0 ≠ "visual_query" := by
              intro hc
              exact htn'.2 (by rw [hc])
            simp [Json.eqStr, hne]
        | null => rfl
        | bool b => rfl
        | num n => rfl
        | arr xs => rfl
        | obj o => rfl
      simp only [hgc', hvq, Option.map, Option.getD, Bool.false_eq_true, if_false]
      cases tnv with
      | arr xs => simp [Json.hashable] at htn'
      | obj o => simp [Json.hashable] at htn'
      | null => simp [SemanticRouter.getToolByKey, bind, Except.bind, pure, Except.pure]
      | bool b => simp [SemanticRouter.getToolByKey, bind, Except.bind, pure, Except.pure]
      | num n => simp [SemanticRouter.getToolByKey, bind, Except.bind, pure, Except.pure]
      | str s0 =>
          cases hg : CoreRegistry.get_tool tools s0 with
          | none =>
              simp [SemanticRouter.getToolByKey, hg, bind, Except.bind, pure, Except.pure]
          | some tool =>
              subst hpkvs
              by_cases hsuc : (BaseTool.execute tool pkvs).success = true
              · obtain ⟨dkvs, hdk⟩ :
                    ∃ dkvs, (BaseTool.execute tool pkvs).data = .obj dkvs := by
                  have hobj := hdata s0 tool (core_get_tool_mem tools s0 tool hg) pkvs hsuc
                  cases hdd : (BaseTool.execute tool pkvs).data <;>
                    rw [hdd] at hobj <;> simp [Json.isObj] at hobj ⊢
                obtain ⟨out, hout⟩ := format_success_total (some (.str s0)) dkvs
                refine ⟨out, ?_⟩
                simp only [SemanticRouter.getToolByKey, hg, bind, Except.bind, pure,
                  Except.pure, hsuc, if_true]
                rw [hdk]
                exact hout
              · have hsuc' : (BaseTool.execute tool pkvs).success = false := by
                  simpa using hsuc
                simp [SemanticRouter.getToolByKey, hg, bind, Except.bind, pure,
                  Except.pure, hsuc']

/-- C2 amended witness: an unparseable reply routes to chat and the
dispatcher answers, at concrete inputs discharging every hypothesis. -/
theorem process_command_returns_response_witness :
    ∃ s, SovereignAgent.process_command [] "hi" (.ok "hello") = .ok s :=
  process_command_returns_response [] "hi" (.ok "hello")
    (by
      intro v h
      have hv : Json.str "general_chat" = v :=
        Option.some.inj (h : some (Json.str "general_chat") = some v)
      refine ⟨hv ▸ rfl, ?_⟩
      rw [← hv]
      intro hc
      simp at hc)
    (by
      intro v h
      have hv : Json.obj [("message", Json.str "hello"), ("parse_error", Json.bool true)] = v :=
        Option.some.inj
          (h : some (Json.obj [("message", Json.str "hello"), ("parse_error", Json.bool true)])
            = some v)
      rw [← hv]
      rfl)
    (by intro s t hmem; cases hmem)
